import Mathlib

/-!
Shallow embedding of the corpus-annotation tool (`src/app.py`) and proofs of
the specified persistence/synchronization properties.

Modelling conventions:

* A Python `dict` `{id: [category, ...]}` is embedded as an association list
  `List (String × List String)` in insertion order (Python dicts preserve
  insertion order; assignment to an existing key keeps its position).
* The CSV transport (`pandas.to_csv` / `pandas.read_csv` with `sep=";"`) is
  modelled at field granularity: a data row is the list of its field strings
  (the header `id;kategorie` is implicit).  `to_csv` writes each field
  string faithfully (pandas quotes fields containing the separator).
  `read_csv` is modelled in two layers, mirroring pandas: per field, any of
  the default NA strings (`""`, `"nan"`, `"NA"`, `"null"`, `"None"`, ... —
  the `keep_default_na` list) is coerced to `NaN`; per column, if every
  non-NA field is numeric-like (or every one bool-like) the whole column is
  re-typed, and the row loop's `str(...)` then yields the canonical print of
  the parsed value (exact here for integer- and bool-typed fields; the
  shortest-repr formatting of binary floats is out of scope, so float-typed
  fields are left as written — no theorem below depends on a re-typed
  column).  A data row with more fields than the two-column header makes
  `read_csv` raise a `ParserError`, which is the malformed-row case.
* Python's `",".join(cats)` and `str.split(",")` are embedded character-wise
  via `List.intercalate` / `List.splitOn` on the string's character list;
  both agree with the Python semantics (in particular `"".split(",") = [""]`).
* Streamlit's `st.session_state` is the `SessionState` structure; the
  multiselect widget entry `st.session_state[f"cat_{text_id}"]` is the
  function field `widget : String → Option (List String)` indexed by text id
  (`none` = key not present).  Local disk and the Drive object are the
  `World` structure around it.
* Remote I/O transport errors are not modelled (the claims under study only
  depend on availability checks, not on network faults).
-/

namespace Annotator

/-- In-memory map `{text_id: [category, ...]}`, in insertion order. -/
abbrev AnnotationMap := List (String × List String)

/-- The keys of an `AnnotationMap`, in order. -/
def keys (m : AnnotationMap) : List String := m.map Prod.fst

/-- Python `annotations.get(text_id, [])`: value of the first matching key,
default `[]`. -/
def lookupD (m : AnnotationMap) (k : String) : List String :=
  match m.find? (fun p => p.1 == k) with
  | some p => p.2
  | none => []

/-- Python `annotations[text_id] = v`: replace the value in place if the key
is present, otherwise append the new entry. -/
def dictInsert (m : AnnotationMap) (k : String) (v : List String) : AnnotationMap :=
  match m with
  | [] => [(k, v)]
  | p :: rest => if p.1 == k then (k, v) :: rest else p :: dictInsert rest k v

/-- Python `",".join(cats)` (character-wise). -/
def joinComma (cats : List String) : String :=
  ⟨[','].intercalate (cats.map String.data)⟩

/-- Python `s.split(",")` (character-wise); note `"".split(",") = [""]`. -/
def splitComma (s : String) : List String :=
  (s.data.splitOn ',').map (fun cs => ⟨cs⟩)

/-- A CSV data row of the local file, as its list of field strings (the
header row `id;kategorie` is implicit, the separator is `;`). -/
abbrev CsvRow := List String

/-- pandas' default NA field values (`read_csv` with `keep_default_na=True`):
a field exactly equal to one of these strings is read as `NaN`. -/
def NA_VALUES : List String :=
  ["", "#N/A", "#N/A N/A", "#NA", "-1.#IND", "-1.#QNAN", "-NaN", "-nan",
   "1.#IND", "1.#QNAN", "<NA>", "N/A", "NA", "NULL", "NaN", "None",
   "n/a", "nan", "null"]

/-- Is this field one of pandas' default NA strings? -/
def isNAString (s : String) : Bool := NA_VALUES.contains s

/-- One non-empty run of decimal digits. -/
def digitsOnly (cs : List Char) : Bool := !cs.isEmpty && cs.all (fun c => c.isDigit)

/-- Strip one leading `+` or `-`. -/
def dropSign (cs : List Char) : List Char :=
  match cs with
  | c :: rest => if c = '+' || c = '-' then rest else cs
  | [] => []

/-- A field pandas parses as an integer: optional sign, then digits. -/
def intLike (s : String) : Bool := digitsOnly (dropSign s.data)

/-- A decimal mantissa: `digits [. [digits]]` or `. digits`. -/
def mantissaLike (cs : List Char) : Bool :=
  match cs.span (fun c => c.isDigit) with
  | (intPart, rest) =>
    match rest with
    | [] => !intPart.isEmpty
    | '.' :: frac => (!intPart.isEmpty || !frac.isEmpty) && frac.all (fun c => c.isDigit)
    | _ => false

/-- A mantissa with an optional `e`/`E` exponent. -/
def floatBodyLike (cs : List Char) : Bool :=
  match cs.span (fun c => c ≠ 'e' && c ≠ 'E') with
  | (mant, rest) =>
    match rest with
    | [] => mantissaLike mant
    | _ :: ex => mantissaLike mant && digitsOnly (dropSign ex)

/-- `inf` / `infinity`, case-insensitively. -/
def infLike (cs : List Char) : Bool :=
  cs.map Char.toLower = "inf".data || cs.map Char.toLower = "infinity".data

/-- A field pandas' tokenizer accepts as a number (int or float). -/
def numericLike (s : String) : Bool :=
  floatBodyLike (dropSign s.data) || infLike (dropSign s.data)

/-- Boolean field spellings pandas recognises. -/
def TRUE_VALUES : List String := ["True", "TRUE", "true"]

/-- Boolean field spellings pandas recognises. -/
def FALSE_VALUES : List String := ["False", "FALSE", "false"]

/-- A field pandas parses as a boolean. -/
def boolLike (s : String) : Bool := TRUE_VALUES.contains s || FALSE_VALUES.contains s

/-- `str(int(s))` for an `intLike` field: sign and leading zeros normalised. -/
def canonInt (s : String) : String :=
  let neg := s.data.head? = some '-'
  let ds := (dropSign s.data).dropWhile (fun c => c = '0')
  match ds with
  | [] => "0"
  | _ => if neg then ⟨'-' :: ds⟩ else ⟨ds⟩

/-- `str(bool(s))` for a `boolLike` field. -/
def canonBool (s : String) : String :=
  if TRUE_VALUES.contains s then "True" else "False"

/-- The `str(...)` image of one field of a re-typed column: exact for
integer- and bool-typed fields; float formatting is out of scope and such
fields are left as written (no theorem depends on a re-typed column). -/
def canonField (s : String) : String :=
  if intLike s then canonInt s
  else if boolLike s then canonBool s
  else s

/-- `read_csv`'s NA coercion of one field: `none` is `NaN`. -/
def naFilter (s : String) : Option String :=
  if isNAString s then none else some s

/-- pandas re-types a whole column exactly when every non-NA field is
numeric-like, or every non-NA field is bool-like. -/
def colRetyped (vals : List (Option String)) : Bool :=
  vals.all (fun v => v.elim true numericLike) || vals.all (fun v => v.elim true boolLike)

/-- The local annotation file: its data rows. -/
structure CsvFile where
  rows : List CsvRow
deriving DecidableEq

/-- `save_annotations_to_csv` (app.py 145-157): one row per map entry, in map
iteration order: `{"id": text_id, "kategorie": ",".join(cats)}`. -/
def save_annotations_to_csv (annotations : AnnotationMap) : CsvFile :=
  ⟨annotations.map (fun p => [p.1, joinComma p.2])⟩

/-- Tokenizing one data row, as `pd.read_csv` does: a row with more fields
than the two-column header raises a `ParserError`; a one-field row has a
missing (`NaN`) `kategorie`; a zero-field row is a blank line, skipped by
`read_csv`. -/
def parseRow (row : CsvRow) : Except String (Option (String × Option String)) :=
  match row with
  | [] => .ok none
  | [i] => .ok (some (i, none))
  | [i, cats] => .ok (some (i, some cats))
  | _ => .error "ParserError"

/-- `pd.read_csv` parses the whole file eagerly: the first malformed row
makes the whole read raise. -/
def parseRows (rows : List CsvRow) : Except String (List (Option (String × Option String))) :=
  match rows with
  | [] => .ok []
  | r :: rs =>
    match parseRow r, parseRows rs with
    | .error e, _ => .error e
    | .ok _, .error e => .error e
    | .ok x, .ok xs => .ok (x :: xs)

/-- The `id` column as `read_csv` sees it before dtype inference: each field
NA-coerced. -/
def idColumn (table : List (String × Option String)) : List (Option String) :=
  table.map (fun r => naFilter r.1)

/-- The `kategorie` column as `read_csv` sees it before dtype inference:
missing fields are already `NaN`, present fields are NA-coerced. -/
def catsColumn (table : List (String × Option String)) : List (Option String) :=
  table.map (fun r => r.2.bind naFilter)

/-- One field's value after `read_csv` (NA coercion, then the column-wide
re-typing) composed with the row loop's `str(...)`. -/
def readField (retyped : Bool) (v : Option String) : Option String :=
  v.map (fun s => if retyped then canonField s else s)

/-- The loop body of `load_annotations_from_csv` (app.py 132-138) on one
row: `text_id = str(row["id"])` (`str(NaN)` is `"nan"`); `cats` is `[]` when
`pd.isna(cats) or cats == ""`, else `str(cats).split(",")`. -/
def rowToEntry (idRe catRe : Bool) (r : String × Option String) : String × List String :=
  (match readField idRe (naFilter r.1) with
   | none => "nan"
   | some s => s,
   match readField catRe (r.2.bind naFilter) with
   | none => []
   | some s => if s = "" then [] else splitComma s)

/-- The whole `pd.read_csv` + row loop on the tokenized data rows: infer the
two columns' dtypes, convert each row to a map entry, fold the entries into
a dict. -/
def readTable (table : List (String × Option String)) : AnnotationMap :=
  let idRe := colRetyped (idColumn table)
  let catRe := colRetyped (catsColumn table)
  (table.map (rowToEntry idRe catRe)).foldl (fun acc e => dictInsert acc e.1 e.2) []

/-- `load_annotations_from_csv` (app.py 124-143).  `none` is a path that does
not exist (`os.path.exists` false → `{}`).  Any parse error is caught by the
`try/except`, reported via `st.error`, and `{}` is returned.  Otherwise the
tokenized rows are read as a two-column table and folded into a dict. -/
def load_annotations_from_csv (file : Option CsvFile) : AnnotationMap :=
  match file with
  | none => []
  | some f =>
    match parseRows f.rows with
    | .error _ => []
    | .ok entries => readTable (entries.filterMap id)

/-- Saving then re-loading the local file. -/
def roundTrip (m : AnnotationMap) : AnnotationMap :=
  load_annotations_from_csv (some (save_annotations_to_csv m))

/-- Equality of annotation maps modulo key order and label order within each
list: same keys up to permutation, and for every key of `m` the two label
lists are permutations of one another. -/
def mapEquiv (m n : AnnotationMap) : Prop :=
  (keys m).Perm (keys n) ∧ ∀ k ∈ keys m, (lookupD m k).Perm (lookupD n k)

instance (m n : AnnotationMap) : Decidable (mapEquiv m n) := by
  unfold mapEquiv; infer_instance

/-- The progress count of `main` (app.py 434):
`len([a for a in annotations.values() if len(a) > 0])`. -/
def countAnnotated (m : AnnotationMap) : Nat :=
  ((m.map Prod.snd).filter (fun a => 0 < a.length)).length

/-- The relevant `st.session_state` entries.  `widget tid` is the value of
`st.session_state[f"cat_{tid}"]` when that key is present. -/
structure SessionState where
  annotations : AnnotationMap
  current_index : Nat
  unsaved_changes : Bool
  drive_service : Bool
  drive_file_id : Option String
  widget : String → Option (List String)

/-- `capture_current_selection` (app.py 268-277): if the multiselect key is
present and its value differs from `annotations.get(text_id, [])`, store it
and raise the dirty flag; otherwise do nothing. -/
def capture_current_selection (text_id : String) (s : SessionState) : SessionState :=
  match s.widget text_id with
  | none => s
  | some current_selection =>
    if lookupD s.annotations text_id ≠ current_selection then
      { s with
        annotations := dictInsert s.annotations text_id current_selection,
        unsaved_changes := true }
    else s

/-- `navigate_previous` (app.py 282-288): capture, then decrement the cursor
if it is positive. -/
def navigate_previous (current_text_id : String) (s : SessionState) : SessionState :=
  let s := capture_current_selection current_text_id s
  if 0 < s.current_index then { s with current_index := s.current_index - 1 } else s

/-- `navigate_next` (app.py 291-298): capture, then increment the cursor if
it is below `len(texts_df) - 1` (`total` is `len(texts_df)`). -/
def navigate_next (total : Nat) (current_text_id : String) (s : SessionState) : SessionState :=
  let s := capture_current_selection current_text_id s
  if s.current_index < total - 1 then { s with current_index := s.current_index + 1 } else s

/-- The mutable world around the session: the local file
`outputs/anotacje.csv` (`none` = does not exist) and the content of the
remote Drive object. -/
structure World where
  session : SessionState
  localFile : Option CsvFile
  remote : Option CsvFile

/-- `save_to_local_file` (app.py 301-317): capture the current selection,
write the whole map to the local CSV, clear the dirty flag on success.  The
local write itself is modelled as always succeeding (no disk faults). -/
def save_to_local_file (current_text_id : String) (w : World) : Bool × World :=
  let s := capture_current_selection current_text_id w.session
  let file := save_annotations_to_csv s.annotations
  (true,
    { w with
      session := { s with unsaved_changes := false },
      localFile := some file })

/-- `upload_to_drive` (app.py 110-118): push the bytes of the local file to
the remote object; with no local file the upload raises and `False` is
returned. -/
def upload_to_drive (w : World) : Bool × World :=
  match w.localFile with
  | none => (false, w)
  | some f => (true, { w with remote := some f })

/-- `save_to_drive` (app.py 320-339): unconditionally run
`save_to_local_file` first, then fail if the Drive service or the file
handle is missing, otherwise upload the local file. -/
def save_to_drive (current_text_id : String) (w : World) : Bool × World :=
  let r := save_to_local_file current_text_id w
  let w1 := r.2
  if !w1.session.drive_service then (false, w1)
  else
    match w1.session.drive_file_id with
    | none => (false, w1)
    | some _ => upload_to_drive w1

/-- Observable effects of the startup sequence. -/
inductive Event where
  | downloadFromDrive
  | loadAnnotationsFromLocal
deriving DecidableEq

/-- The effect trace of a fresh run of `init_session_state` (app.py 180-211):
when the Drive service and a resolved file handle are both present, the
remote file is downloaded only if the local file does not exist; afterwards
the map is loaded from the local file.  `drive_service` and `file_id` are the
results of `init_google_drive`; `localExists` is
`os.path.exists(LOCAL_OUTPUT)`. -/
def init_session_state_events (drive_service : Bool) (file_id : Option String)
    (localExists : Bool) : List Event :=
  (if drive_service && file_id.isSome then
    if !localExists then [Event.downloadFromDrive] else []
  else []) ++ [Event.loadAnnotationsFromLocal]

/-- `REMOTE_FILENAME` (app.py 26). -/
def REMOTE_FILENAME : String := "anotacje.csv"

/-- A non-trashed object in the configured Drive folder. -/
structure DriveObject where
  id : String
  name : String
deriving DecidableEq

/-- The configured Drive folder: its current objects. -/
structure DriveFolder where
  objects : List DriveObject
deriving DecidableEq

/-- The file-handle resolution of `init_google_drive` (app.py 79-85), for a
session whose credentials and folder id are configured: list the folder's
objects whose name equals `REMOTE_FILENAME` exactly, take the id of the
first one if any, else `None`.  The returned folder is the folder after the
call: the function only queries, it never creates an object. -/
def init_google_drive (folder : DriveFolder) : Option String × DriveFolder :=
  let files := folder.objects.filter (fun f => f.name == REMOTE_FILENAME)
  ((files.head?).map DriveObject.id, folder)

/-! ### Helper lemmas -/

theorem mk_data (s : String) : (⟨s.data⟩ : String) = s := rfl

theorem lookupD_cons_self (k : String) (v : List String) (m : AnnotationMap) :
    lookupD ((k, v) :: m) k = v := by
  simp [lookupD]

theorem lookupD_cons_ne (p : String × List String) (m : AnnotationMap) (k : String)
    (h : p.1 ≠ k) : lookupD (p :: m) k = lookupD m k := by
  simp only [lookupD, List.find?_cons]
  have : (p.1 == k) = false := beq_eq_false_iff_ne.mpr h
  rw [this]

theorem lookupD_eq_nil_of_not_mem (m : AnnotationMap) (k : String) (h : k ∉ keys m) :
    lookupD m k = [] := by
  simp only [keys] at h
  have hnone : m.find? (fun p => p.1 == k) = none := by
    rw [List.find?_eq_none]
    intro p hp hbeq
    exact h (List.mem_map.mpr ⟨p, hp, eq_of_beq hbeq⟩)
  simp [lookupD, hnone]

theorem dictInsert_of_not_mem (m : AnnotationMap) (k : String) (v : List String)
    (h : k ∉ keys m) : dictInsert m k v = m ++ [(k, v)] := by
  induction m with
  | nil => rfl
  | cons p rest ih =>
    simp only [keys, List.map_cons, List.mem_cons, not_or] at h
    have hne : (p.1 == k) = false := beq_eq_false_iff_ne.mpr (fun hk => h.1 hk.symm)
    have hrest : k ∉ keys rest := h.2
    simp [dictInsert, hne, ih hrest]

theorem foldl_dictInsert (m : AnnotationMap) (hnd : (keys m).Nodup) :
    ∀ acc : AnnotationMap, (∀ k ∈ keys m, k ∉ keys acc) →
      m.foldl (fun a p => dictInsert a p.1 p.2) acc = acc ++ m := by
  induction m with
  | nil => intro acc _; simp
  | cons p rest ih =>
    intro acc hdis
    simp only [keys, List.map_cons, List.nodup_cons] at hnd
    have hp : p.1 ∉ keys acc := hdis p.1 (by simp [keys])
    simp only [List.foldl_cons]
    rw [dictInsert_of_not_mem acc p.1 p.2 hp]
    have hdis2 : ∀ k ∈ keys rest, k ∉ keys (acc ++ [(p.1, p.2)] : AnnotationMap) := by
      intro k hk
      simp only [keys, List.map_append, List.map_cons, List.map_nil, List.mem_append,
        List.mem_singleton, not_or]
      refine ⟨hdis k ?_, ?_⟩
      · simp only [keys, List.map_cons, List.mem_cons]
        exact Or.inr (by simpa [keys] using hk)
      · intro hkp
        exact hnd.1 (hkp ▸ (by simpa [keys] using hk))
    rw [ih hnd.2 (acc ++ [(p.1, p.2)]) hdis2]
    simp

theorem splitComma_joinComma (v : List String) (hv : v ≠ [])
    (hc : ∀ l ∈ v, ',' ∉ l.data) : splitComma (joinComma v) = v := by
  unfold splitComma joinComma
  show (([','].intercalate (v.map String.data)).splitOn ',').map (fun cs => (⟨cs⟩ : String)) = v
  have h1 : ∀ l ∈ v.map String.data, ',' ∉ l := by
    intro l hl
    obtain ⟨s, hs, rfl⟩ := List.mem_map.mp hl
    exact hc s hs
  have h2 : v.map String.data ≠ [] := by simpa using hv
  rw [List.splitOn_intercalate (v.map String.data) ',' h1 h2]
  rw [List.map_map]
  exact List.map_id'' (fun s => rfl) v

theorem parseRows_saved (m : AnnotationMap) :
    parseRows (save_annotations_to_csv m).rows =
      .ok (m.map (fun p => some (p.1, some (joinComma p.2)))) := by
  induction m with
  | nil => rfl
  | cons p rest ih =>
    simp only [save_annotations_to_csv, List.map_cons] at ih ⊢
    unfold parseRows
    rw [show parseRow [p.1, joinComma p.2] = .ok (some (p.1, some (joinComma p.2))) from rfl]
    rw [ih]

theorem filterMap_id_map_some {α β : Type} (f : α → β) (l : List α) :
    (l.map (fun a => some (f a))).filterMap id = l.map f := by
  induction l with
  | nil => rfl
  | cons a t ih => simp [ih]

theorem rowToEntry_saved (catRe : Bool) (p : String × List String)
    (hidp : isNAString p.1 = false)
    (hcp : ∀ l ∈ p.2, ',' ∉ l.data)
    (hcatp : p.2 = [] ∨ (catRe = false ∧ isNAString (joinComma p.2) = false)) :
    rowToEntry false catRe (p.1, some (joinComma p.2)) = p := by
  obtain ⟨i, v⟩ := p
  simp only at hidp hcp hcatp
  unfold rowToEntry readField
  simp only [naFilter, hidp, Bool.false_eq_true, if_false, Option.map_some',
    Option.some_bind]
  rcases hcatp with rfl | ⟨hflag, hna⟩
  · have hNAempty : isNAString (joinComma []) = true := by decide
    simp [hNAempty]
  · subst hflag
    have hvne : v ≠ [] := by
      intro h
      rw [h] at hna
      exact absurd hna (by decide)
    have hjne : joinComma v ≠ "" := by
      intro h
      rw [h] at hna
      exact absurd hna (by decide)
    simp only [hna, Bool.false_eq_true, if_false, Option.map_some']
    rw [if_neg hjne]
    rw [splitComma_joinComma v hvne hcp]

theorem readTable_saved (m : AnnotationMap) (hnd : (keys m).Nodup)
    (hc : ∀ p ∈ m, ∀ l ∈ p.2, ',' ∉ l.data)
    (hid : ∀ p ∈ m, isNAString p.1 = false ∧ numericLike p.1 = false ∧ boolLike p.1 = false)
    (hcat : ∀ p ∈ m, p.2 = [] ∨
      (isNAString (joinComma p.2) = false ∧ numericLike (joinComma p.2) = false ∧
        boolLike (joinComma p.2) = false)) :
    readTable (m.map (fun p => (p.1, some (joinComma p.2)))) = m := by
  match m with
  | [] => rfl
  | q :: rest =>
  have hq : (q :: rest : AnnotationMap) ≠ [] := by simp
  have hIdRe :
      colRetyped (idColumn ((q :: rest).map
        (fun p => (p.1, some (joinComma p.2))))) = false := by
    have hcol : idColumn ((q :: rest).map (fun p => (p.1, some (joinComma p.2)))) =
        (q :: rest).map (fun p => some p.1) := by
      simp only [idColumn, List.map_map]
      refine List.map_congr_left ?_
      intro p hp
      simp [Function.comp, naFilter, (hid p hp).1]
    rw [hcol]
    simp only [colRetyped, Bool.or_eq_false_iff]
    constructor
    · rw [List.all_eq_false]
      exact ⟨some q.1, List.mem_map.mpr ⟨q, by simp, rfl⟩,
        by simp [(hid q (by simp)).2.1]⟩
    · rw [List.all_eq_false]
      exact ⟨some q.1, List.mem_map.mpr ⟨q, by simp, rfl⟩,
        by simp [(hid q (by simp)).2.2]⟩
  have hcatcol : catsColumn ((q :: rest).map (fun p => (p.1, some (joinComma p.2)))) =
      (q :: rest).map (fun p => naFilter (joinComma p.2)) := by
    simp only [catsColumn, List.map_map]
    refine List.map_congr_left ?_
    intro p hp
    simp [Function.comp]
  simp only [readTable]
  rw [hIdRe]
  by_cases hall : ∀ p ∈ (q :: rest : AnnotationMap), p.2 = ([] : List String)
  · have hmap : ((q :: rest).map (fun p => (p.1, some (joinComma p.2)))).map
        (rowToEntry false (colRetyped (catsColumn ((q :: rest).map
          (fun p => (p.1, some (joinComma p.2))))))) = q :: rest := by
      rw [List.map_map]
      have hpt := List.map_congr_left (l := q :: rest)
        (f := rowToEntry false (colRetyped (catsColumn ((q :: rest).map
          (fun p => (p.1, some (joinComma p.2)))))) ∘ (fun p => (p.1, some (joinComma p.2))))
        (g := fun p => p)
        (fun p hp => rowToEntry_saved _ p (hid p hp).1 (hc p hp) (Or.inl (hall p hp)))
      rw [hpt, List.map_id']
    rw [hmap]
    exact foldl_dictInsert (q :: rest) hnd [] (by simp [keys])
  · push_neg at hall
    obtain ⟨p0, hp0, hp0ne⟩ := hall
    have hcat0 := (hcat p0 hp0).resolve_left hp0ne
    have hCatRe : colRetyped (catsColumn ((q :: rest).map
        (fun p => (p.1, some (joinComma p.2))))) = false := by
      rw [hcatcol]
      simp only [colRetyped, Bool.or_eq_false_iff]
      constructor
      · rw [List.all_eq_false]
        refine ⟨naFilter (joinComma p0.2), List.mem_map.mpr ⟨p0, hp0, rfl⟩, ?_⟩
        simp [naFilter, hcat0.1, hcat0.2.1]
      · rw [List.all_eq_false]
        refine ⟨naFilter (joinComma p0.2), List.mem_map.mpr ⟨p0, hp0, rfl⟩, ?_⟩
        simp [naFilter, hcat0.1, hcat0.2.2]
    rw [hCatRe]
    have hmap : ((q :: rest).map (fun p => (p.1, some (joinComma p.2)))).map
        (rowToEntry false false) = q :: rest := by
      rw [List.map_map]
      have hpt := List.map_congr_left (l := q :: rest)
        (f := rowToEntry false false ∘ (fun p => (p.1, some (joinComma p.2))))
        (g := fun p => p)
        (fun p hp => rowToEntry_saved false p (hid p hp).1 (hc p hp)
          ((hcat p hp).imp id (fun h => ⟨rfl, h.1⟩)))
      rw [hpt, List.map_id']
    rw [hmap]
    exact foldl_dictInsert (q :: rest) hnd [] (by simp [keys])

theorem roundTrip_eq (m : AnnotationMap) (hnd : (keys m).Nodup)
    (hc : ∀ p ∈ m, ∀ l ∈ p.2, ',' ∉ l.data)
    (hid : ∀ p ∈ m, isNAString p.1 = false ∧ numericLike p.1 = false ∧ boolLike p.1 = false)
    (hcat : ∀ p ∈ m, p.2 = [] ∨
      (isNAString (joinComma p.2) = false ∧ numericLike (joinComma p.2) = false ∧
        boolLike (joinComma p.2) = false)) :
    roundTrip m = m := by
  unfold roundTrip load_annotations_from_csv
  dsimp only
  rw [parseRows_saved m]
  dsimp only
  rw [filterMap_id_map_some (fun p => (p.1, some (joinComma p.2))) m]
  exact readTable_saved m hnd hc hid hcat

theorem parseRow_error_of_long (r : CsvRow) (hlen : 2 < r.length) :
    parseRow r = .error "ParserError" := by
  match r with
  | [] => simp at hlen
  | [_] => simp at hlen
  | [_, _] => simp at hlen
  | _ :: _ :: _ :: _ => rfl

theorem parseRows_error_of_mem (rows : List CsvRow) (r : CsvRow) (hr : r ∈ rows)
    (hlen : 2 < r.length) : ∃ e, parseRows rows = .error e := by
  induction rows with
  | nil => simp at hr
  | cons r0 rs ih =>
    rcases List.mem_cons.mp hr with rfl | hmem
    · exact ⟨"ParserError", by unfold parseRows; rw [parseRow_error_of_long r hlen]⟩
    · obtain ⟨e, he⟩ := ih hmem
      unfold parseRows
      rw [he]
      cases hrow : parseRow r0 <;> exact ⟨_, rfl⟩

theorem capture_of_changed (tid : String) (s : SessionState) (sel : List String)
    (hw : s.widget tid = some sel) (hne : lookupD s.annotations tid ≠ sel) :
    capture_current_selection tid s =
      { s with annotations := dictInsert s.annotations tid sel, unsaved_changes := true } := by
  unfold capture_current_selection
  rw [hw]
  simp [hne]

theorem capture_of_unchanged (tid : String) (s : SessionState) (sel : List String)
    (hw : s.widget tid = some sel) (heq : lookupD s.annotations tid = sel) :
    capture_current_selection tid s = s := by
  unfold capture_current_selection
  rw [hw]
  simp [heq]

theorem capture_of_absent (tid : String) (s : SessionState)
    (hw : s.widget tid = none) : capture_current_selection tid s = s := by
  unfold capture_current_selection
  rw [hw]

theorem capture_current_index (tid : String) (s : SessionState) :
    (capture_current_selection tid s).current_index = s.current_index := by
  unfold capture_current_selection
  cases hw : s.widget tid with
  | none => rfl
  | some sel =>
    dsimp only
    split <;> rfl

theorem capture_drive_service (tid : String) (s : SessionState) :
    (capture_current_selection tid s).drive_service = s.drive_service := by
  unfold capture_current_selection
  cases hw : s.widget tid with
  | none => rfl
  | some sel =>
    dsimp only
    split <;> rfl

theorem capture_drive_file_id (tid : String) (s : SessionState) :
    (capture_current_selection tid s).drive_file_id = s.drive_file_id := by
  unfold capture_current_selection
  cases hw : s.widget tid with
  | none => rfl
  | some sel =>
    dsimp only
    split <;> rfl

theorem countAnnotated_eq (m : AnnotationMap) (hnd : (keys m).Nodup) :
    countAnnotated m = ((keys m).filter (fun k => 0 < (lookupD m k).length)).length := by
  induction m with
  | nil => rfl
  | cons p rest ih =>
    rw [keys, List.map_cons, List.nodup_cons] at hnd
    have hcongr : ∀ k ∈ keys rest,
        (decide (0 < (lookupD (p :: rest) k).length)) =
        (decide (0 < (lookupD rest k).length)) := by
      intro k hk
      rw [lookupD_cons_ne p rest k (fun hpk => hnd.1 (by rw [hpk]; exact hk))]
    show ((List.map Prod.snd (p :: rest)).filter (fun a => 0 < a.length)).length =
      ((p.1 :: keys rest).filter (fun k => 0 < (lookupD (p :: rest) k).length)).length
    rw [List.map_cons, List.filter_cons, List.filter_cons]
    rw [lookupD_cons_self p.1 p.2 rest]
    rw [List.filter_congr hcongr]
    have ihr := ih hnd.2
    simp only [countAnnotated] at ihr
    by_cases h : 0 < p.2.length <;> simp [h, ihr]

/-! ### Claims -/

/-- C1: at session startup, if the local annotation file already exists the
remote download is never invoked, regardless of remote availability; if the
local file is absent and the Drive service is up with a resolved file
handle, the download is invoked exactly once, before the annotation map is
loaded from the local file. -/
theorem c1_startup_download_policy (drive_service : Bool) (file_id : Option String) :
    Event.downloadFromDrive ∉ init_session_state_events drive_service file_id true ∧
    (drive_service = true → file_id.isSome = true →
      init_session_state_events drive_service file_id false =
        [Event.downloadFromDrive, Event.loadAnnotationsFromLocal]) := by
  constructor
  · cases drive_service <;> cases file_id <;> simp [init_session_state_events]
  · intro hd hf
    subst hd
    cases file_id with
    | none => simp at hf
    | some fid => simp [init_session_state_events]

/-- Concrete instance of C1 with the Drive connected. -/
theorem c1_startup_download_policy_witness :
    Event.downloadFromDrive ∉ init_session_state_events true (some "abc123") true ∧
    init_session_state_events true (some "abc123") false =
      [Event.downloadFromDrive, Event.loadAnnotationsFromLocal] :=
  ⟨(c1_startup_download_policy true (some "abc123")).1,
   (c1_startup_download_policy true (some "abc123")).2 rfl rfl⟩

/-- C3 (counterexample): a file with one valid row `1;X` and one malformed
row (three fields) loads as the empty map: the valid remaining row is NOT
loaded, so a malformed row is not merely skipped. -/
theorem c3_soft_error_counterexample :
    load_annotations_from_csv (some ⟨[["1", "X"], ["2", "Y", "Z"]]⟩) = [] ∧
    load_annotations_from_csv (some ⟨[["1", "X"], ["2", "Y", "Z"]]⟩) ≠ [("1", ["X"])] := by
  decide

/-- C3 (amended): an unparseable row is a soft error for the session (the
exception is caught and reported), but it aborts the whole load: the
returned map is empty, and no valid row of the file is loaded. -/
theorem c3_malformed_row_aborts_load (rows : List CsvRow) (r : CsvRow)
    (hr : r ∈ rows) (hlen : 2 < r.length) :
    load_annotations_from_csv (some ⟨rows⟩) = [] := by
  obtain ⟨e, he⟩ := parseRows_error_of_mem rows r hr hlen
  unfold load_annotations_from_csv
  dsimp only
  rw [he]

/-- Concrete instance of the amended C3. -/
theorem c3_malformed_row_aborts_load_witness :
    load_annotations_from_csv (some ⟨[["7", "A"], ["8", "B", "C"]]⟩) = [] :=
  c3_malformed_row_aborts_load [["7", "A"], ["8", "B", "C"]] ["8", "B", "C"]
    (by decide) (by decide)

/-- C4: loading from a path that does not exist returns the empty annotation
map and raises no error. -/
theorem c4_load_missing_path_empty : load_annotations_from_csv none = [] := rfl

/-- C5: the annotated-progress count equals the number of keys whose label
list has length at least 1; an absent key carries no labels (and a present
key with an empty list contributes 0 to the count). -/
theorem c5_progress_count (m : AnnotationMap) (hnd : (keys m).Nodup) :
    countAnnotated m = ((keys m).filter (fun k => 0 < (lookupD m k).length)).length ∧
    ∀ k, k ∉ keys m → lookupD m k = [] :=
  ⟨countAnnotated_eq m hnd, fun k hk => lookupD_eq_nil_of_not_mem m k hk⟩

/-- Concrete instance of C5: one annotated key, one present-but-empty key,
one absent key. -/
theorem c5_progress_count_witness :
    countAnnotated [("1", ["X"]), ("2", [])] =
      ((keys [("1", ["X"]), ("2", [])]).filter
        (fun k => 0 < (lookupD [("1", ["X"]), ("2", [])] k).length)).length ∧
    lookupD [("1", ["X"]), ("2", [])] "3" = [] :=
  ⟨(c5_progress_count [("1", ["X"]), ("2", [])] (by decide)).1,
   (c5_progress_count [("1", ["X"]), ("2", [])] (by decide)).2 "3" (by decide)⟩

/-- C6: navigating forward at the last index and navigating backward at
index 0 both leave the cursor unchanged; neither is an error. -/
theorem c6_navigate_clamped (total : Nat) (tid : String) (s : SessionState) :
    (s.current_index = 0 → (navigate_previous tid s).current_index = 0) ∧
    (s.current_index = total - 1 →
      (navigate_next total tid s).current_index = s.current_index) := by
  constructor
  · intro h0
    unfold navigate_previous
    have hc : (capture_current_selection tid s).current_index = 0 := by
      rw [capture_current_index, h0]
    simp [hc]
  · intro hl
    unfold navigate_next
    have hc : (capture_current_selection tid s).current_index = total - 1 := by
      rw [capture_current_index, hl]
    simp [hc, hl]

/-- Concrete instance of C6 on a one-text corpus at index 0. -/
theorem c6_navigate_clamped_witness :
    (navigate_previous "1" (⟨[], 0, false, false, none, fun _ => none⟩ : SessionState)).current_index = 0 ∧
    (navigate_next 1 "1" (⟨[], 0, false, false, none, fun _ => none⟩ : SessionState)).current_index =
      (⟨[], 0, false, false, none, fun _ => none⟩ : SessionState).current_index :=
  ⟨(c6_navigate_clamped 1 "1" ⟨[], 0, false, false, none, fun _ => none⟩).1 rfl,
   (c6_navigate_clamped 1 "1" ⟨[], 0, false, false, none, fun _ => none⟩).2 rfl⟩

/-- C7: the capture step updates the annotation map at the current text id
exactly when the widget selection differs from the stored labels, and is a
complete no-op (no map mutation, no dirty-flag change) when it is equal. -/
theorem c7_capture_semantics (tid : String) (s : SessionState) (sel : List String)
    (hw : s.widget tid = some sel) :
    (lookupD s.annotations tid ≠ sel →
      capture_current_selection tid s =
        { s with annotations := dictInsert s.annotations tid sel, unsaved_changes := true }) ∧
    (lookupD s.annotations tid = sel → capture_current_selection tid s = s) :=
  ⟨fun hne => capture_of_changed tid s sel hw hne,
   fun heq => capture_of_unchanged tid s sel hw heq⟩

/-- Concrete instances of C7: one changed capture, one unchanged capture. -/
theorem c7_capture_semantics_witness :
    capture_current_selection "1" (⟨[], 0, false, false, none, fun _ => some ["X"]⟩ : SessionState) =
      ⟨[("1", ["X"])], 0, true, false, none, fun _ => some ["X"]⟩ ∧
    capture_current_selection "1"
        (⟨[("1", ["X"])], 0, false, false, none, fun _ => some ["X"]⟩ : SessionState) =
      ⟨[("1", ["X"])], 0, false, false, none, fun _ => some ["X"]⟩ :=
  ⟨(c7_capture_semantics "1" ⟨[], 0, false, false, none, fun _ => some ["X"]⟩ ["X"] rfl).1
      (by decide),
   (c7_capture_semantics "1" ⟨[("1", ["X"])], 0, false, false, none, fun _ => some ["X"]⟩ ["X"]
      rfl).2 (by decide)⟩

/-- C8 (counterexample): resolving the remote handle when no object in the
folder bears the exact target name yields no handle at all, and the folder
afterwards still contains no such object: no empty placeholder is created. -/
theorem c8_no_placeholder_counterexample :
    (init_google_drive ⟨[⟨"f17", "inne.csv"⟩]⟩).1 = none ∧
    (init_google_drive ⟨[⟨"f17", "inne.csv"⟩]⟩).2 = ⟨[⟨"f17", "inne.csv"⟩]⟩ := by
  decide

/-- C8 (amended): when no remote object with the exact target name exists in
the configured parent folder, no placeholder is created: the resolution
returns no file handle and leaves the folder unchanged (a later remote save
then fails, telling the user to create the file manually). -/
theorem c8_resolve_absent_returns_none (folder : DriveFolder)
    (h : folder.objects.filter (fun f => f.name == REMOTE_FILENAME) = []) :
    init_google_drive folder = (none, folder) := by
  unfold init_google_drive
  rw [h]
  rfl

/-- Concrete instance of the amended C8. -/
theorem c8_resolve_absent_returns_none_witness :
    init_google_drive ⟨[⟨"f99", "other.csv"⟩]⟩ = (none, ⟨[⟨"f99", "other.csv"⟩]⟩) :=
  c8_resolve_absent_returns_none ⟨[⟨"f99", "other.csv"⟩]⟩ (by decide)

/-- C9: `save_to_drive` performs the full local save first; when the Drive
service is unavailable it fails and the completed local save is kept exactly
(no rollback); when the service and a file handle are available it uploads
the just-saved local file. -/
theorem c9_save_to_drive_policy (tid : String) (w : World) :
    (w.session.drive_service = false →
      save_to_drive tid w = (false, (save_to_local_file tid w).2)) ∧
    (∀ fid, w.session.drive_service = true → w.session.drive_file_id = some fid →
      save_to_drive tid w = upload_to_drive (save_to_local_file tid w).2) := by
  constructor
  · intro h
    simp only [save_to_drive, save_to_local_file]
    simp [capture_drive_service, h]
  · intro fid h1 h2
    simp only [save_to_drive, save_to_local_file]
    simp [capture_drive_service, capture_drive_file_id, h1, h2]

/-- Concrete instances of C9: one offline world, one connected world. -/
theorem c9_save_to_drive_policy_witness :
    save_to_drive "1" (⟨⟨[], 0, false, false, none, fun _ => none⟩, none, none⟩ : World) =
      (false, (save_to_local_file "1" ⟨⟨[], 0, false, false, none, fun _ => none⟩, none, none⟩).2) ∧
    save_to_drive "1" (⟨⟨[], 0, false, true, some "abc123", fun _ => none⟩, none, none⟩ : World) =
      upload_to_drive
        (save_to_local_file "1" ⟨⟨[], 0, false, true, some "abc123", fun _ => none⟩, none, none⟩).2 :=
  ⟨(c9_save_to_drive_policy "1" ⟨⟨[], 0, false, false, none, fun _ => none⟩, none, none⟩).1 rfl,
   (c9_save_to_drive_policy "1" ⟨⟨[], 0, false, true, some "abc123", fun _ => none⟩, none, none⟩).2
      "abc123" rfl rfl⟩

/-- C10: navigating from a boundary still runs the capture step before the
cursor check: with a changed widget selection, the cursor stays put but the
annotation map entry and the dirty flag are updated. -/
theorem c10_boundary_still_captures (total : Nat) (tid : String) (s : SessionState)
    (sel : List String) (hw : s.widget tid = some sel)
    (hne : lookupD s.annotations tid ≠ sel) :
    (s.current_index = 0 →
      navigate_previous tid s =
        { s with annotations := dictInsert s.annotations tid sel, unsaved_changes := true }) ∧
    (s.current_index = total - 1 →
      navigate_next total tid s =
        { s with annotations := dictInsert s.annotations tid sel, unsaved_changes := true }) := by
  have hcap := capture_of_changed tid s sel hw hne
  constructor
  · intro h0
    unfold navigate_previous
    rw [hcap]
    simp [h0]
  · intro hl
    unfold navigate_next
    rw [hcap]
    simp [hl]

/-- Concrete instance of C10 on a one-text corpus at index 0 with a changed
selection. -/
theorem c10_boundary_still_captures_witness :
    navigate_previous "1" (⟨[], 0, false, false, none, fun _ => some ["X"]⟩ : SessionState) =
      ⟨[("1", ["X"])], 0, true, false, none, fun _ => some ["X"]⟩ ∧
    navigate_next 1 "1" (⟨[], 0, false, false, none, fun _ => some ["X"]⟩ : SessionState) =
      ⟨[("1", ["X"])], 0, true, false, none, fun _ => some ["X"]⟩ :=
  ⟨(c10_boundary_still_captures 1 "1" ⟨[], 0, false, false, none, fun _ => some ["X"]⟩ ["X"]
      rfl (by decide)).1 rfl,
   (c10_boundary_still_captures 1 "1" ⟨[], 0, false, false, none, fun _ => some ["X"]⟩ ["X"]
      rfl (by decide)).2 rfl⟩

end Annotator
